import Mathlib

/-
Formal model of the Passport photo backend core:
  backend/utils/process_photo.py  (crop geometry, color resolution,
    enhancement, the orchestrator and its fallback chain)
  backend/utils/a4_generator.py   (grid layout and sheet building)

Python floats are modelled as exact rationals, Python ints as Int,
Python floor division as Int.fdiv, and the Python int() conversion of a
nonnegative float as the floor (truncation toward zero in general).
External library primitives (PIL pixel transforms, the rembg matting
model, the OpenCV face detector) are modelled as an abstract environment
of possibly-failing functions; Python exceptions are modelled with
Except Unit.
-/

namespace Passport

/-- Pixel-format mode of a PIL image; the pipeline only distinguishes
RGB, RGBA and anything else. -/
inductive ImgMode where
  | RGB
  | RGBA
  | other
deriving DecidableEq

/-- A PIL image: dimensions, mode and an abstract pixel payload. -/
structure Img where
  width : Nat
  height : Nat
  mode : ImgMode
  data : List Nat
deriving DecidableEq

/-- Abstract environment of external library primitives the backend
calls (PIL pixel operations, the rembg matting model, the OpenCV
detector).  Each may fail, modelling a raised exception; pixel payloads
are transformed opaquely while dimensions and modes follow the library
contracts encoded in the wrappers below. -/
structure PILEnv where
  convertData : List Nat → ImgMode → ImgMode → Except Unit (List Nat)
  resizeData : List Nat → Nat → Nat → Nat → Nat → Except Unit (List Nat)
  cropData : List Nat → Nat → Nat → Int → Int → Int → Int → List Nat
  rotateImg : Img → ℚ → Except Unit Img
  toGray : Img → Except Unit (List Nat)
  detect : List Nat → Option (Int × Int × Int × Int)
  rembgAvailable : Bool
  rembgRemove : Img → Except Unit Img
  brightnessData : List Nat → ℚ → Except Unit (List Nat)
  contrastData : List Nat → ℚ → Except Unit (List Nat)
  compositeData : List Nat → List Nat → List Nat
  fillData : Nat → Nat → Int × Int × Int × Int → List Nat

/-- PIL img.convert(mode): same dimensions, new mode. -/
def pyConvert (env : PILEnv) (img : Img) (m : ImgMode) : Except Unit Img :=
  (env.convertData img.data img.mode m).map fun d =>
    { width := img.width, height := img.height, mode := m, data := d }

/-- PIL img.resize((w, h), LANCZOS): requested dimensions, same mode. -/
def pyResize (env : PILEnv) (img : Img) (w h : Nat) : Except Unit Img :=
  (env.resizeData img.data img.width img.height w h).map fun d =>
    { width := w, height := h, mode := img.mode, data := d }

/-- PIL img.crop((l, t, r, b)): the box may extend beyond the image
bounds (PIL pads), but an inverted box raises ValueError.  The result
has exactly the requested box dimensions. -/
def pyCrop (env : PILEnv) (img : Img) (box : Int × Int × Int × Int) :
    Except Unit Img :=
  match box with
  | (l, t, r, b) =>
    if r < l ∨ b < t then .error ()
    else .ok { width := (r - l).toNat, height := (b - t).toNat,
               mode := img.mode,
               data := env.cropData img.data img.width img.height l t r b }

/-- PIL Image.new(mode, size, color). -/
def image_new (env : PILEnv) (m : ImgMode) (w h : Nat)
    (color : Int × Int × Int × Int) : Img :=
  { width := w, height := h, mode := m, data := env.fillData w h color }

/-- PIL Image.alpha_composite(bg, fg): both images must be RGBA of the
same size, else PIL raises. -/
def alpha_composite (env : PILEnv) (bg fg : Img) : Except Unit Img :=
  if bg.mode = ImgMode.RGBA ∧ fg.mode = ImgMode.RGBA ∧
     bg.width = fg.width ∧ bg.height = fg.height then
    .ok { width := bg.width, height := bg.height, mode := ImgMode.RGBA,
          data := env.compositeData bg.data fg.data }
  else .error ()

/-- Python int() applied to a float: truncation toward zero. -/
def pyint (q : ℚ) : Int := if 0 ≤ q then ⌊q⌋ else ⌈q⌉

/-- One axis of crop_centered_square_from_bbox (process_photo.py lines
99-115): candidate interval, clamp to [0, limit], then the two
adjustment branches.  The horizontal and vertical axes run this same
code with (center.x, width) and (center.y, height). -/
def axis_bounds (cs : Int) (c : ℚ) (limit : Nat) : Int × Int :=
  let lo := pyint (max (c - (cs : ℚ) / 2) 0)
  let hi := min (lo + cs) (limit : Int)
  if hi - lo < cs then
    if lo = 0 then (0, min cs (limit : Int))
    else (max 0 (hi - cs), hi)
  else (lo, hi)

/-- crop_size = int(max(w, h) * scale), line 96 of process_photo.py. -/
def crop_size (w h : Int) (scale : ℚ) : Int := pyint ((max w h : ℚ) * scale)

/-- crop_centered_square_from_bbox, region computation: center of the
bounding box, crop size int(max(w, h) * scale), then both axes. -/
def crop_region_from_bbox (W H : Nat) (bbox : Int × Int × Int × Int)
    (scale : ℚ) : Int × Int × Int × Int :=
  match bbox with
  | (x, y, w, h) =>
    let cs := crop_size w h scale
    let hseg := axis_bounds cs ((x : ℚ) + (w : ℚ) / 2) W
    let vseg := axis_bounds cs ((y : ℚ) + (h : ℚ) / 2) H
    (hseg.1, vseg.1, hseg.2, vseg.2)

/-- Manual crop data supplied by the caller (a truthy crop_data dict;
a falsy dict — None or empty — is modelled as Option.none at the call
site, matching the `if crop_data:` test).  Every recognized key is
optional. -/
structure CropData where
  x : Option Int
  y : Option Int
  width : Option Int
  height : Option Int
  rotation : Option ℚ

/-- The literal crop box of the manual-crop branch (process_photo.py
lines 205-216): defaults x = 0, y = 0, width = height = min(W, H),
applied as (x, y, x + width, y + height). -/
def manual_crop_box (W H : Nat) (cd : CropData) : Int × Int × Int × Int :=
  let x := cd.x.getD 0
  let y := cd.y.getD 0
  let w := cd.width.getD ((min W H : Nat) : Int)
  let h := cd.height.getD ((min W H : Nat) : Int)
  (x, y, x + w, y + h)

/-- Step 1 of the orchestrator: manual crop (rotation then literal box)
if crop_data is truthy, else face detection with a centered-square
fallback. -/
def crop_step (env : PILEnv) (img : Img) (face_scale : ℚ)
    (crop_data : Option CropData) : Except Unit Img :=
  match crop_data with
  | some cd => do
    let rot := cd.rotation.getD 0
    let img2 ← if rot ≠ 0 then env.rotateImg img (-rot) else pure img
    pyCrop env img2 (manual_crop_box img.width img.height cd)
  | none => do
    let gray ← env.toGray img
    match env.detect gray with
    | none =>
      let side := min img.width img.height
      let left := (img.width - side) / 2
      let top := (img.height - side) / 2
      pyCrop env img ((left : Int), (top : Int), (left : Int) + side,
                      (top : Int) + side)
    | some bbox =>
      pyCrop env img (crop_region_from_bbox img.width img.height bbox
                      face_scale)

/-- remove_background_rembg: skip when rembg is unavailable, otherwise
run the model and convert to RGBA; any failure inside the try block
falls back to converting the original crop to RGBA (which may itself
fail and propagate). -/
def remove_background_rembg (env : PILEnv) (img : Img) : Except Unit Img :=
  if env.rembgAvailable = false then pyConvert env img ImgMode.RGBA
  else
    match (do
      let r ← env.rembgRemove img
      pyConvert env r ImgMode.RGBA : Except Unit Img) with
    | .ok r => .ok r
    | .error _ => pyConvert env img ImgMode.RGBA

/-- A value found inside a color tuple or list: either something the
Python int() conversion accepts (an int, a float, a numeric string —
represented by the resulting integer) or something it rejects. -/
inductive PyVal where
  | num (n : Int)
  | nonnum
deriving DecidableEq

/-- Python int(v): raises for a non-numeric value. -/
def pyToInt : PyVal → Except Unit Int
  | .num n => .ok n
  | .nonnum => .error ()

/-- The union-typed color argument of _parse_color: a string, a tuple
or list, or any other type. -/
inductive PyColor where
  | str (s : String)
  | seq (xs : List PyVal)
  | other
deriving DecidableEq

/-- Python whitespace characters recognized by str.strip(). -/
def pyWS (ch : Char) : Bool :=
  ch == ' ' || ch == '\t' || ch == '\n' || ch == '\x0d' ||
  ch == '\x0b' || ch == '\x0c'

/-- Python str.strip(): drop leading and trailing whitespace. -/
def pyStrip (s : String) : String :=
  String.mk (((s.data.dropWhile pyWS).reverse.dropWhile pyWS).reverse)

/-- Python str.lower() on one character (ASCII range, which is all the
color tokens use). -/
def pyLowerChar (ch : Char) : Char :=
  if 'A' ≤ ch ∧ ch ≤ 'Z' then Char.ofNat (ch.toNat + 32) else ch

/-- Python str.lower(). -/
def pyLower (s : String) : String := String.mk (s.data.map pyLowerChar)

/-- Value of one hexadecimal digit. -/
def hexDigitVal (ch : Char) : Option Int :=
  if '0' ≤ ch ∧ ch ≤ '9' then some ((ch.toNat : Int) - ('0'.toNat : Int))
  else if 'a' ≤ ch ∧ ch ≤ 'f' then
    some ((ch.toNat : Int) - ('a'.toNat : Int) + 10)
  else if 'A' ≤ ch ∧ ch ≤ 'F' then
    some ((ch.toNat : Int) - ('A'.toNat : Int) + 10)
  else none

/-- Python int(s, 16) on a two-character slice: two hex digits, or a
sign followed by one digit, or one digit padded by whitespace;
everything else raises ValueError. -/
def pyInt16 (c1 c2 : Char) : Option Int :=
  match hexDigitVal c1, hexDigitVal c2 with
  | some d1, some d2 => some (16 * d1 + d2)
  | some d1, none => if pyWS c2 then some d1 else none
  | none, some d2 =>
    if pyWS c1 then some d2
    else if c1 = '+' then some d2
    else if c1 = '-' then some (-d2)
    else none
  | none, none => none

/-- The named passport-photo palette of _parse_color. -/
def named_colors : List (String × (Int × Int × Int)) :=
  [("white", (255, 255, 255)),
   ("blue", (0, 102, 204)),
   ("light_blue", (173, 216, 230)),
   ("red", (204, 0, 0)),
   ("light_red", (255, 182, 193)),
   ("black", (0, 0, 0)),
   ("gray", (128, 128, 128)),
   ("light_gray", (211, 211, 211))]

/-- String branch of _parse_color: strip and lowercase, then named
lookup, then 7-character hash-prefixed hex, else opaque white. -/
def parse_color_string (s : String) : Int × Int × Int × Int :=
  let c := pyLower (pyStrip s)
  match named_colors.lookup c with
  | some (r, g, b) => (r, g, b, 255)
  | none =>
    match c.data with
    | ['#', a, b, c1, d, e, f] =>
      match pyInt16 a b, pyInt16 c1 d, pyInt16 e f with
      | some r, some g, some bl => (r, g, bl, 255)
      | _, _, _ => (255, 255, 255, 255)
    | _ => (255, 255, 255, 255)

/-- _parse_color (process_photo.py lines 267-313).  A tuple or list of
length at least 3 is converted entry-wise by int(), which raises for a
non-numeric entry; a string goes through the normalize/lookup path;
any other type falls through to opaque white. -/
def parse_color : PyColor → Except Unit (Int × Int × Int × Int)
  | .seq (a :: b :: c :: rest) => do
    let r ← pyToInt a
    let g ← pyToInt b
    let bl ← pyToInt c
    match rest with
    | [] => pure (r, g, bl, 255)
    | d :: _ => do
      let al ← pyToInt d
      pure (r, g, bl, al)
  | .seq _ => .ok (255, 255, 255, 255)
  | .str s => .ok (parse_color_string s)
  | .other => .ok (255, 255, 255, 255)

/-- ImageEnhance.Brightness(img).enhance(factor): same shape. -/
def apply_brightness (env : PILEnv) (img : Img) (factor : ℚ) :
    Except Unit Img :=
  (env.brightnessData img.data factor).map fun d => { img with data := d }

/-- ImageEnhance.Contrast(img).enhance(factor): same shape. -/
def apply_contrast (env : PILEnv) (img : Img) (factor : ℚ) :
    Except Unit Img :=
  (env.contrastData img.data factor).map fun d => { img with data := d }

/-- enhance_image_quality: brightness then contrast, each skipped at
factor 1.0; the internal try/except returns the current image binding
on any enhancer failure. -/
def enhance_image_quality (env : PILEnv) (img : Img)
    (brightness contrast : ℚ) : Img :=
  match (if brightness ≠ 1 then apply_brightness env img brightness
         else .ok img) with
  | .error _ => img
  | .ok img1 =>
    match (if contrast ≠ 1 then apply_contrast env img1 contrast
           else .ok img1) with
    | .error _ => img1
    | .ok img2 => img2

/-- Steps 4-6 of the orchestrator: convert the composite to RGB,
optionally enhance, and resize to the canonical 600 by 600. -/
def finalize (env : PILEnv) (brightness contrast : ℚ)
    (enhance_quality : Bool) (composed : Img) : Except Unit Img := do
  let final_rgb ← pyConvert env composed ImgMode.RGB
  let fr2 := if enhance_quality then
    enhance_image_quality env final_rgb brightness contrast else final_rgb
  pyResize env fr2 600 600

/-- Steps 1-3 of the orchestrator plus the composite of step 4:
convert to RGBA, crop, matte, resolve the backdrop color, composite. -/
def pre_composite (env : PILEnv) (pil_img : Img) (bg_color : PyColor)
    (face_scale : ℚ) (crop_data : Option CropData) : Except Unit Img := do
  let img ← pyConvert env pil_img ImgMode.RGBA
  let cropped ← crop_step env img face_scale crop_data
  let fg ← remove_background_rembg env cropped
  let bg_rgba ← parse_color bg_color
  let background := image_new env ImgMode.RGBA fg.width fg.height bg_rgba
  alpha_composite env background fg

/-- The whole try block of process_passport_photo. -/
def main_pipeline (env : PILEnv) (pil_img : Img) (bg_color : PyColor)
    (face_scale brightness contrast : ℚ) (enhance_quality : Bool)
    (crop_data : Option CropData) : Except Unit Img :=
  pre_composite env pil_img bg_color face_scale crop_data >>=
    finalize env brightness contrast enhance_quality

/-- The blank opaque white 600 by 600 image of the last-resort branch. -/
def blank_white (env : PILEnv) : Img :=
  { width := 600, height := 600, mode := ImgMode.RGB,
    data := env.fillData 600 600 (255, 255, 255, 255) }

/-- The except branch of process_passport_photo: resize the original
input to 600 by 600, and if that also fails, a blank white image. -/
def emergency_fallback (env : PILEnv) (pil_img : Img) : Img :=
  match (do
    let i ← pyConvert env pil_img ImgMode.RGB
    pyResize env i 600 600 : Except Unit Img) with
  | .ok fb => fb
  | .error _ => blank_white env

/-- process_passport_photo (process_photo.py lines 173-265). -/
def process_passport_photo (env : PILEnv) (pil_img : Img)
    (bg_color : PyColor) (face_scale brightness contrast : ℚ)
    (enhance_quality : Bool) (crop_data : Option CropData) : Img :=
  match main_pipeline env pil_img bg_color face_scale brightness contrast
        enhance_quality crop_data with
  | .ok r => r
  | .error _ => emergency_fallback env pil_img

/-- A4 canvas width in pixels at 300 DPI. -/
def A4_WIDTH_PX : Int := 2480

/-- A4 canvas height in pixels at 300 DPI. -/
def A4_HEIGHT_PX : Int := 3508

/-- Passport photo cell size in pixels. -/
def PASSPORT_SIZE_PX : Int := 600

/-- calculate_grid_layout (a4_generator.py lines 21-60).  Python floor
division is Int.fdiv; a cell size and spacing summing to zero raises
ZeroDivisionError, modelled as the error case. -/
def calculate_grid_layout (a4_size : Int × Int) (photo_size margin spacing : Int) :
    Except Unit (Int × Int × Int × Int) :=
  match a4_size with
  | (canvas_width, canvas_height) =>
    let available_width := canvas_width - 2 * margin
    let available_height := canvas_height - 2 * margin
    if photo_size + spacing = 0 then .error ()
    else
      let cols := max 1 ((available_width + spacing).fdiv (photo_size + spacing))
      let rows := max 1 ((available_height + spacing).fdiv (photo_size + spacing))
      let total_grid_width := cols * photo_size + (cols - 1) * spacing
      let total_grid_height := rows * photo_size + (rows - 1) * spacing
      .ok (cols, rows, (canvas_width - total_grid_width).fdiv 2,
           (canvas_height - total_grid_height).fdiv 2)

/-- The A4 sheet raster: its dimensions and the positions at which
photos have been pasted (the pixel content is not modelled). -/
structure Sheet where
  width : Nat
  height : Nat
  pasted : List (Int × Int)
deriving DecidableEq

/-- add_cutting_guides draws 1px guide lines on the raster; on the
dimensions-and-placements model of a Sheet it changes nothing. -/
def add_cutting_guides (sheet : Sheet) (_cols _rows _xoff _yoff _spacing : Int) :
    Sheet :=
  sheet

/-- The placement loop of make_a4_sheet (lines 99-114): row-major over
the grid, stop once the requested copies are placed, and skip any cell
whose rectangle would exceed the canvas. -/
def place_photos (sheet : Sheet) (cols rows : Nat)
    (x_offset y_offset spacing : Int) (copies : Nat) : Sheet :=
  (List.range rows).foldl (fun (sh : Sheet) (row : Nat) =>
    (List.range cols).foldl (fun (sh2 : Sheet) (col : Nat) =>
      if sh2.pasted.length ≥ copies then sh2
      else
        let x := x_offset + (col : Int) * (PASSPORT_SIZE_PX + spacing)
        let y := y_offset + (row : Int) * (PASSPORT_SIZE_PX + spacing)
        if x + PASSPORT_SIZE_PX ≤ A4_WIDTH_PX ∧
           y + PASSPORT_SIZE_PX ≤ A4_HEIGHT_PX then
          { sh2 with pasted := sh2.pasted ++ [(x, y)] }
        else sh2) sh) sheet

/-- The emitted print document: either a full-bleed page holding the
sheet raster, or the fallback error page with its fixed message. -/
inductive Document where
  | page (sheet : Sheet)
  | errorPage (msg : String)
deriving DecidableEq

/-- create_empty_pdf: the single-page fallback document. -/
def create_empty_pdf : Document :=
  Document.errorPage "Error: Could not generate passport photo sheet"

/-- create_pdf_from_image: embed the sheet raster on one page. -/
def create_pdf_from_image (sheet : Sheet) : Document := Document.page sheet

/-- Number of photos placed on the emitted document. -/
def Document.placedPhotos : Document → Nat
  | .page s => s.pasted.length
  | .errorPage _ => 0

/-- A coarse size measure of the emitted document: the raster area of a
page, or the length of the error message; both are positive, standing
for the non-empty byte stream the emitter produces. -/
def Document.contentSize : Document → Nat
  | .page s => s.width * s.height
  | .errorPage m => m.length

/-- make_a4_sheet (a4_generator.py lines 62-129): resize the photo to
600 by 600 if needed, compute the grid, place up to the requested
copies, optionally draw cut guides, emit; any failure inside the try
block yields create_empty_pdf. -/
def make_a4_sheet (env : PILEnv) (passport_img : Img) (copies : Nat)
    (margin spacing : Int) (add_cut_lines : Bool) : Document :=
  match (do
    let _photo ← if passport_img.width = 600 ∧ passport_img.height = 600
      then pure passport_img else pyResize env passport_img 600 600
    let layout ← calculate_grid_layout (A4_WIDTH_PX, A4_HEIGHT_PX)
      PASSPORT_SIZE_PX margin spacing
    pure layout : Except Unit (Int × Int × Int × Int)) with
  | .error _ => create_empty_pdf
  | .ok (cols, rows, x_offset, y_offset) =>
    let sheet := place_photos { width := 2480, height := 3508, pasted := [] }
      cols.toNat rows.toNat x_offset y_offset spacing copies
    let sheet2 := if add_cut_lines then
      add_cutting_guides sheet cols rows x_offset y_offset spacing else sheet
    create_pdf_from_image sheet2

/-- The placement loop of make_a4_sheet_multiple (lines 162-184): each
placed cell consumes the next photo, resizing it to 600 by 600 when it
does not already match (a resize failure raises out of the loop). -/
def place_photos_multi (env : PILEnv) (imgs : List Img) (sheet : Sheet)
    (cols rows : Nat) (x_offset y_offset spacing : Int) :
    Except Unit (Sheet × Nat) :=
  (List.range rows).foldlM (fun (st : Sheet × Nat) (row : Nat) =>
    (List.range cols).foldlM (fun (st2 : Sheet × Nat) (col : Nat) =>
      if st2.2 ≥ imgs.length then pure st2
      else
        let x := x_offset + (col : Int) * (PASSPORT_SIZE_PX + spacing)
        let y := y_offset + (row : Int) * (PASSPORT_SIZE_PX + spacing)
        if x + PASSPORT_SIZE_PX ≤ A4_WIDTH_PX ∧
           y + PASSPORT_SIZE_PX ≤ A4_HEIGHT_PX then
          match imgs[st2.2]? with
          | none => .error ()
          | some im => do
            let _photo ← if im.width = 600 ∧ im.height = 600 then pure im
              else pyResize env im 600 600
            pure ({ st2.1 with pasted := st2.1.pasted ++ [(x, y)] }, st2.2 + 1)
        else pure st2) st) (sheet, 0)

/-- make_a4_sheet_multiple (a4_generator.py lines 131-198): an empty
photo list short-circuits to create_empty_pdf; otherwise lay out and
place photos in input order with the same defensive bounds check. -/
def make_a4_sheet_multiple (env : PILEnv) (passport_images : List Img)
    (margin spacing : Int) (add_cut_lines : Bool) : Document :=
  if passport_images = [] then create_empty_pdf
  else
    match (do
      let layout ← calculate_grid_layout (A4_WIDTH_PX, A4_HEIGHT_PX)
        PASSPORT_SIZE_PX margin spacing
      match layout with
      | (cols, rows, x_offset, y_offset) =>
        place_photos_multi env passport_images
          { width := 2480, height := 3508, pasted := [] }
          cols.toNat rows.toNat x_offset y_offset spacing :
      Except Unit (Sheet × Nat)) with
    | .error _ => create_empty_pdf
    | .ok (sheet, _) =>
      let sheet2 := if add_cut_lines then
        add_cutting_guides sheet 0 0 0 0 spacing else sheet
      create_pdf_from_image sheet2

/-- A trivial environment in which every external primitive succeeds,
used to instantiate universally quantified theorems at a concrete
point. -/
def dummyEnv : PILEnv where
  convertData := fun d _ _ => .ok d
  resizeData := fun d _ _ _ _ => .ok d
  cropData := fun d _ _ _ _ _ _ => d
  rotateImg := fun i _ => .ok i
  toGray := fun i => .ok i.data
  detect := fun _ => none
  rembgAvailable := false
  rembgRemove := fun i => .ok i
  brightnessData := fun d _ => .ok d
  contrastData := fun d _ => .ok d
  compositeData := fun d _ => d
  fillData := fun _ _ _ => []

lemma except_bind_ok {α β : Type} {x : Except Unit α} {f : α → Except Unit β}
    {b : β} (hx : x >>= f = Except.ok b) :
    ∃ a, x = Except.ok a ∧ f a = Except.ok b := by
  cases x with
  | ok a => exact ⟨a, rfl, hx⟩
  | error e => exact Except.noConfusion hx

lemma pyResize_ok {env : PILEnv} {img : Img} {w h : Nat} {r : Img}
    (hr : pyResize env img w h = .ok r) :
    r.width = w ∧ r.height = h ∧ r.mode = img.mode := by
  unfold pyResize at hr
  cases hd : env.resizeData img.data img.width img.height w h with
  | ok d =>
    rw [hd] at hr
    simp only [Except.map, Except.ok.injEq] at hr
    rw [← hr]
    exact ⟨rfl, rfl, rfl⟩
  | error e =>
    rw [hd] at hr
    exact Except.noConfusion hr

lemma pyConvert_ok {env : PILEnv} {img : Img} {m : ImgMode} {r : Img}
    (hr : pyConvert env img m = .ok r) :
    r.width = img.width ∧ r.height = img.height ∧ r.mode = m := by
  unfold pyConvert at hr
  cases hd : env.convertData img.data img.mode m with
  | ok d =>
    rw [hd] at hr
    simp only [Except.map, Except.ok.injEq] at hr
    rw [← hr]
    exact ⟨rfl, rfl, rfl⟩
  | error e =>
    rw [hd] at hr
    exact Except.noConfusion hr

lemma apply_brightness_ok {env : PILEnv} {img : Img} {f : ℚ} {r : Img}
    (hr : apply_brightness env img f = .ok r) :
    r.width = img.width ∧ r.height = img.height ∧ r.mode = img.mode := by
  unfold apply_brightness at hr
  cases hd : env.brightnessData img.data f with
  | ok d =>
    rw [hd] at hr
    simp only [Except.map, Except.ok.injEq] at hr
    rw [← hr]
    exact ⟨rfl, rfl, rfl⟩
  | error e =>
    rw [hd] at hr
    exact Except.noConfusion hr

lemma apply_contrast_ok {env : PILEnv} {img : Img} {f : ℚ} {r : Img}
    (hr : apply_contrast env img f = .ok r) :
    r.width = img.width ∧ r.height = img.height ∧ r.mode = img.mode := by
  unfold apply_contrast at hr
  cases hd : env.contrastData img.data f with
  | ok d =>
    rw [hd] at hr
    simp only [Except.map, Except.ok.injEq] at hr
    rw [← hr]
    exact ⟨rfl, rfl, rfl⟩
  | error e =>
    rw [hd] at hr
    exact Except.noConfusion hr

lemma enhance_shape (env : PILEnv) (img : Img) (b c : ℚ) :
    (enhance_image_quality env img b c).width = img.width ∧
    (enhance_image_quality env img b c).height = img.height ∧
    (enhance_image_quality env img b c).mode = img.mode := by
  unfold enhance_image_quality
  split
  case _ heq =>
    split at heq
    case _ => exact ⟨rfl, rfl, rfl⟩
    case _ => exact ⟨rfl, rfl, rfl⟩
  case _ img1 heq =>
    have h1 : img1.width = img.width ∧ img1.height = img.height ∧
        img1.mode = img.mode := by
      split at heq
      case _ => exact apply_brightness_ok heq
      case _ =>
        simp only [Except.ok.injEq] at heq
        rw [← heq]
        exact ⟨rfl, rfl, rfl⟩
    split
    case _ => exact h1
    case _ img2 heq2 =>
      have h2 : img2.width = img1.width ∧ img2.height = img1.height ∧
          img2.mode = img1.mode := by
        split at heq2
        case _ => exact apply_contrast_ok heq2
        case _ =>
          simp only [Except.ok.injEq] at heq2
          rw [← heq2]
          exact ⟨rfl, rfl, rfl⟩
      exact ⟨h2.1.trans h1.1, h2.2.1.trans h1.2.1, h2.2.2.trans h1.2.2⟩

lemma finalize_ok {env : PILEnv} {b c : ℚ} {enh : Bool} {composed r : Img}
    (h : finalize env b c enh composed = .ok r) :
    r.width = 600 ∧ r.height = 600 ∧ r.mode = ImgMode.RGB := by
  unfold finalize at h
  obtain ⟨frgb, hconv, hrest⟩ := except_bind_ok h
  have hc := pyConvert_ok hconv
  have hr := pyResize_ok hrest
  refine ⟨hr.1, hr.2.1, hr.2.2.trans ?_⟩
  split
  case _ => exact (enhance_shape env frgb b c).2.2.trans hc.2.2
  case _ => exact hc.2.2

lemma emergency_fallback_shape (env : PILEnv) (pil_img : Img) :
    (emergency_fallback env pil_img).width = 600 ∧
    (emergency_fallback env pil_img).height = 600 ∧
    (emergency_fallback env pil_img).mode = ImgMode.RGB := by
  unfold emergency_fallback
  split
  case _ fb heq =>
    obtain ⟨i, hconv, hres⟩ := except_bind_ok heq
    have hr := pyResize_ok hres
    exact ⟨hr.1, hr.2.1, hr.2.2.trans (pyConvert_ok hconv).2.2⟩
  case _ => exact ⟨rfl, rfl, rfl⟩

/-- C1: process_passport_photo is total and, for every input image,
every option set and every behavior of the external primitives
(including injected detector or matting failures and arbitrary faults
in any pipeline step), returns a 600 by 600 opaque RGB image; faults in
the try block fall back to resizing the original input, and a failure
there falls back to a blank opaque white 600 by 600 image, so no
exception ever reaches the caller. -/
theorem process_passport_photo_always_canonical (env : PILEnv)
    (pil_img : Img) (bg_color : PyColor) (face_scale brightness contrast : ℚ)
    (enhance_quality : Bool) (crop_data : Option CropData) :
    (process_passport_photo env pil_img bg_color face_scale brightness
      contrast enhance_quality crop_data).width = 600 ∧
    (process_passport_photo env pil_img bg_color face_scale brightness
      contrast enhance_quality crop_data).height = 600 ∧
    (process_passport_photo env pil_img bg_color face_scale brightness
      contrast enhance_quality crop_data).mode = ImgMode.RGB := by
  unfold process_passport_photo
  split
  case _ r heq =>
    unfold main_pipeline at heq
    obtain ⟨c0, _, hfin⟩ := except_bind_ok heq
    exact finalize_ok hfin
  case _ => exact emergency_fallback_shape env pil_img

/-- C7: enhance_image_quality with brightness factor 1.0 and contrast
factor 1.0 returns its input image unchanged, whatever the enhancer
primitives would do — both enhancer calls are skipped. -/
theorem enhance_identity_at_unit_factors (env : PILEnv) (img : Img) :
    enhance_image_quality env img 1 1 = img := by
  simp [enhance_image_quality]

/-- C4: for the A4 canvas 2480 by 3508 with cell 600, margin 60 and
spacing 30 the planner computes 3 columns and 5 rows (offsets 310 and
194), and make_a4_sheet with 12 requested copies of a canonical 600 by
600 photo places exactly 12 photos, for every environment. -/
theorem a4_default_grid_three_by_five_places_twelve :
    calculate_grid_layout (2480, 3508) 600 60 30 = .ok (3, 5, 310, 194) ∧
    ∀ (env : PILEnv) (m : ImgMode) (d : List Nat) (cut : Bool),
      (make_a4_sheet env (Img.mk 600 600 m d) 12 60 30 cut).placedPhotos
        = 12 := by
  refine ⟨rfl, fun env m d cut => ?_⟩
  cases cut <;> rfl

lemma place_photos_zero_copies (sheet : Sheet) (cols rows : Nat)
    (xo yo sp : Int) : place_photos sheet cols rows xo yo sp 0 = sheet := by
  unfold place_photos
  have inner : ∀ (l : List Nat) (sh : Sheet),
      List.foldl (fun (sh2 : Sheet) (_ : Nat) => sh2) sh l = sh := by
    intro l
    induction l with
    | nil => intro sh; rfl
    | cons a t ih => intro sh; exact ih sh
  simp only [ge_iff_le, Nat.zero_le, if_true]
  simp only [inner]

/-- C8: make_a4_sheet with zero requested copies and
make_a4_sheet_multiple with an empty photo list both return a document
(no exception), with zero placed photos and positive content, for every
environment and layout options; the empty list case returns the
create_empty_pdf fallback document. -/
theorem build_sheet_zero_copies_and_empty_list :
    (∀ (env : PILEnv) (img : Img) (margin spacing : Int) (cut : Bool),
      (make_a4_sheet env img 0 margin spacing cut).placedPhotos = 0 ∧
      0 < (make_a4_sheet env img 0 margin spacing cut).contentSize) ∧
    (∀ (env : PILEnv) (margin spacing : Int) (cut : Bool),
      make_a4_sheet_multiple env [] margin spacing cut = create_empty_pdf ∧
      (make_a4_sheet_multiple env [] margin spacing cut).placedPhotos = 0 ∧
      0 < (make_a4_sheet_multiple env [] margin spacing cut).contentSize) := by
  constructor
  · intro env img margin spacing cut
    unfold make_a4_sheet
    split
    case _ =>
      exact ⟨rfl, by decide⟩
    case _ =>
      rw [place_photos_zero_copies]
      cases cut <;>
        exact ⟨rfl, (by decide :
          0 < (create_pdf_from_image (Sheet.mk 2480 3508 [])).contentSize)⟩
  · intro env margin spacing cut
    refine ⟨rfl, rfl, ?_⟩
    rw [show make_a4_sheet_multiple env [] margin spacing cut
          = create_empty_pdf from rfl]
    decide

/-- C9: string color tokens are stripped of surrounding whitespace and
lowercased before any lookup, so any two strings with the same
normalization resolve identically. -/
theorem color_resolution_normalization_invariant (s t : String)
    (h : pyLower (pyStrip s) = pyLower (pyStrip t)) :
    parse_color (.str s) = parse_color (.str t) := by
  have hst : parse_color_string s = parse_color_string t := by
    unfold parse_color_string
    rw [h]
  simp only [parse_color, hst]

/-- Witness for C9 at concrete inputs: the tokens " WHITE " and
"#FF5733" resolve exactly as "white" and "#ff5733". -/
theorem color_resolution_normalization_invariant_witness :
    pyLower (pyStrip " WHITE ") = pyLower (pyStrip "white") ∧
    parse_color (.str " WHITE ") = parse_color (.str "white") ∧
    parse_color (.str "#FF5733") = parse_color (.str "#ff5733") :=
  ⟨by decide, color_resolution_normalization_invariant _ _ (by decide),
   color_resolution_normalization_invariant _ _ (by decide)⟩

/-- C5, counterexample: with cell size 600 and spacing -600 the divisor
cell + spacing is zero and calculate_grid_layout raises
ZeroDivisionError instead of returning any layout, so the claim does
not hold for every margin and spacing combination. -/
theorem grid_layout_zero_divisor_counterexample :
    calculate_grid_layout (2480, 3508) 600 60 (-600) = .error () := rfl

/-- C5, amended: for every canvas size, cell size, margin and spacing
whose cell size plus spacing is nonzero, the planner returns a layout
with at least one column and one row, and the centering offsets are
exactly (canvasDimension - (count * cellSize + (count - 1) * spacing))
under Python floor division by 2, with no clamping (they may be
negative). -/
theorem grid_layout_counts_and_offsets (a4w a4h photo_size margin spacing : Int)
    (hdiv : photo_size + spacing ≠ 0) :
    ∃ cols rows xo yo,
      calculate_grid_layout (a4w, a4h) photo_size margin spacing =
        .ok (cols, rows, xo, yo) ∧
      1 ≤ cols ∧ 1 ≤ rows ∧
      xo = (a4w - (cols * photo_size + (cols - 1) * spacing)).fdiv 2 ∧
      yo = (a4h - (rows * photo_size + (rows - 1) * spacing)).fdiv 2 := by
  simp only [calculate_grid_layout, if_neg hdiv]
  exact ⟨_, _, _, _, rfl, le_max_left 1 _, le_max_left 1 _, rfl, rfl⟩

/-- Witness for the amended C5 at a concrete input where the centering
offsets are negative and unclamped: a 100 by 100 canvas with 600-pixel
cells yields one column, one row and offsets -250. -/
theorem grid_layout_counts_and_offsets_witness :
    ((600 : Int) + 30 ≠ 0) ∧
    (∃ cols rows xo yo,
      calculate_grid_layout (100, 100) 600 0 30 = .ok (cols, rows, xo, yo) ∧
      1 ≤ cols ∧ 1 ≤ rows ∧
      xo = ((100 : Int) - (cols * 600 + (cols - 1) * 30)).fdiv 2 ∧
      yo = ((100 : Int) - (rows * 600 + (rows - 1) * 30)).fdiv 2) ∧
    calculate_grid_layout (100, 100) 600 0 30 = .ok (1, 1, -250, -250) :=
  ⟨by decide, grid_layout_counts_and_offsets 100 100 600 0 30 (by decide),
   rfl⟩

/-- C3, counterexample: a tuple whose entries the int() conversion
rejects makes _parse_color raise a ValueError instead of resolving to
white, and a numeric tuple with out-of-range entries is passed through
without range validation, so the result is not always a valid 8-bit
RGBA value. -/
theorem parse_color_counterexample :
    parse_color (.seq [.nonnum, .nonnum, .nonnum]) = .error () ∧
    parse_color (.seq [.num (-5), .num 300, .num 7]) =
      .ok (-5, 300, 7, 255) :=
  ⟨rfl, rfl⟩

/-- C3, amended: _parse_color never raises for a string input or a
wrong-type input, resolving every unparseable one to opaque white with
alpha 255; a tuple or list of at least three numeric entries is passed
through entry-wise without range validation, with alpha defaulting to
255 when absent; a tuple or list shorter than three entries resolves to
opaque white.  Only a tuple or list of length at least three with a
non-numeric leading entry raises. -/
theorem parse_color_total_and_defaults :
    (∀ s : String, ∃ rgba, parse_color (.str s) = .ok rgba) ∧
    parse_color .other = .ok (255, 255, 255, 255) ∧
    parse_color (.str "not-a-color") = .ok (255, 255, 255, 255) ∧
    (∀ r g b : Int,
      parse_color (.seq [.num r, .num g, .num b]) = .ok (r, g, b, 255)) ∧
    (∀ (r g b a : Int) (rest : List PyVal),
      parse_color (.seq (.num r :: .num g :: .num b :: .num a :: rest)) =
        .ok (r, g, b, a)) ∧
    (∀ xs : List PyVal, xs.length < 3 →
      parse_color (.seq xs) = .ok (255, 255, 255, 255)) := by
  refine ⟨fun s => ⟨parse_color_string s, rfl⟩, rfl, rfl,
    fun r g b => rfl, fun r g b a rest => rfl, fun xs h => ?_⟩
  match xs with
  | [] => rfl
  | [_] => rfl
  | [_, _] => rfl
  | _ :: _ :: _ :: _ =>
    simp only [List.length_cons] at h
    omega

/-- Witness for the amended C3: a singleton list resolves to opaque
white via the short-sequence arm of the theorem. -/
theorem parse_color_total_and_defaults_witness :
    (([PyVal.num 9] : List PyVal).length < 3) ∧
    parse_color (.seq [.num 9]) = .ok (255, 255, 255, 255) :=
  ⟨by decide, parse_color_total_and_defaults.2.2.2.2.2 [.num 9] (by decide)⟩

lemma pyint_of_nonneg {q : ℚ} (h : 0 ≤ q) : pyint q = ⌊q⌋ := if_pos h

lemma pyint_max_nonneg (q : ℚ) : 0 ≤ pyint (max q 0) := by
  rw [pyint_of_nonneg (le_max_right q 0)]
  exact Int.le_floor.mpr (by exact_mod_cast le_max_right q 0)

lemma axis_bounds_spec (cs : Int) (c : ℚ) (limit : Nat)
    (h1 : 1 ≤ cs) (h2 : cs ≤ (limit : Int)) :
    (axis_bounds cs c limit).2 - (axis_bounds cs c limit).1 = cs ∧
    0 ≤ (axis_bounds cs c limit).1 ∧
    (axis_bounds cs c limit).2 ≤ (limit : Int) := by
  have hlo0 : 0 ≤ pyint (max (c - (cs : ℚ) / 2) 0) := pyint_max_nonneg _
  simp only [axis_bounds]
  set lo := pyint (max (c - (cs : ℚ) / 2) 0) with hlodef
  split_ifs with hcond hzero <;> refine ⟨?_, ?_, ?_⟩ <;> dsimp only <;> omega

lemma axis_bounds_centered (cs : Int) (c : ℚ) (limit : Nat)
    (h0 : 0 ≤ c - (cs : ℚ) / 2)
    (h2 : ⌊c - (cs : ℚ) / 2⌋ + cs ≤ (limit : Int)) :
    |(((axis_bounds cs c limit).1 : ℚ) + ((axis_bounds cs c limit).2 : ℚ))
      / 2 - c| ≤ 1 := by
  have hlo : pyint (max (c - (cs : ℚ) / 2) 0) = ⌊c - (cs : ℚ) / 2⌋ := by
    rw [max_eq_left h0, pyint_of_nonneg h0]
  simp only [axis_bounds, hlo]
  rw [min_eq_left h2]
  rw [if_neg (by omega : ¬(⌊c - (cs : ℚ) / 2⌋ + cs - ⌊c - (cs : ℚ) / 2⌋ < cs))]
  dsimp only
  have hfl : (⌊c - (cs : ℚ) / 2⌋ : ℚ) ≤ c - (cs : ℚ) / 2 := Int.floor_le _
  have hfu : c - (cs : ℚ) / 2 < (⌊c - (cs : ℚ) / 2⌋ : ℚ) + 1 :=
    Int.lt_floor_add_one _
  rw [abs_le]
  constructor <;> push_cast <;> linarith

lemma axis_bounds_degenerate (cs : Int) (c : ℚ) (limit : Nat)
    (h : (limit : Int) < cs) : axis_bounds cs c limit = (0, (limit : Int)) := by
  have hlo0 : 0 ≤ pyint (max (c - (cs : ℚ) / 2) 0) := pyint_max_nonneg _
  simp only [axis_bounds]
  set lo := pyint (max (c - (cs : ℚ) / 2) 0) with hlodef
  split_ifs with hcond hzero
  · rw [min_eq_right (le_of_lt h)]
  · have hmin : min (lo + cs) (limit : Int) = (limit : Int) := by omega
    rw [hmin]
    have hmax : max 0 ((limit : Int) - cs) = 0 := by omega
    rw [hmax]
  · exfalso
    omega

lemma pyint_eq_of_bounds {q : ℚ} {n : Int} (h0 : 0 ≤ q) (h1 : (n : ℚ) ≤ q)
    (h2 : q < n + 1) : pyint q = n := by
  rw [pyint_of_nonneg h0]
  exact Int.floor_eq_iff.mpr ⟨h1, h2⟩

lemma axis_bounds_eval {cs : Int} {c : ℚ} {limit : Nat} {lo : Int}
    (hlo : pyint (max (c - (cs : ℚ) / 2) 0) = lo)
    (hfit : lo + cs ≤ (limit : Int)) :
    axis_bounds cs c limit = (lo, lo + cs) := by
  simp only [axis_bounds, hlo]
  rw [min_eq_left hfit, if_neg (by omega)]

/-- C2, counterexample to the round-based reading: for the bounding box
(0, 0, 10, 10) and scale 2.26 the claimed crop size round(10 * 2.26) is
23 and fits inside the 100 by 100 source, yet the code computes the
side with int() truncation and returns the region (0, 0, 22, 22), whose
side 22 differs from 23; for the box (0, 0, 1, 1) and scale 0.5 the
claimed size round(0.5) = 1 fits, yet the code truncates to 0 and
returns the empty region (0, 0, 0, 0), violating left < right. -/
theorem crop_region_round_counterexample :
    round ((10 : ℚ) * (113 / 50)) = 23 ∧ ((23 : Int) ≤ 100) ∧
    crop_region_from_bbox 100 100 (0, 0, 10, 10) (113 / 50) =
      (0, 0, 22, 22) ∧
    ((22 : Int) - 0 ≠ 23) ∧
    round ((1 : ℚ) * (1 / 2)) = 1 ∧
    crop_region_from_bbox 100 100 (0, 0, 1, 1) (1 / 2) = (0, 0, 0, 0) ∧
    ((0 : Int) - 0 ≠ round ((1 : ℚ) * (1 / 2))) := by
  have hr1 : round ((10 : ℚ) * (113 / 50)) = 23 := by
    rw [round_eq]
    exact Int.floor_eq_iff.mpr ⟨by norm_num, by norm_num⟩
  have hr2 : round ((1 : ℚ) * (1 / 2)) = 1 := by
    rw [round_eq]
    exact Int.floor_eq_iff.mpr ⟨by norm_num, by norm_num⟩
  have hcs1 : crop_size 10 10 (113 / 50) = 22 := by
    unfold crop_size
    refine pyint_eq_of_bounds ?_ ?_ ?_ <;> push_cast [max_self] <;> norm_num
  have hcs2 : crop_size 1 1 (1 / 2) = 0 := by
    unfold crop_size
    refine pyint_eq_of_bounds ?_ ?_ ?_ <;> push_cast [max_self] <;> norm_num
  have hax1 : axis_bounds 22 (((0 : Int) : ℚ) + ((10 : Int) : ℚ) / 2) 100 =
      (0, 0 + 22) := by
    refine axis_bounds_eval ?_ (by norm_num)
    have hm : max ((((0 : Int) : ℚ) + ((10 : Int) : ℚ) / 2) -
        ((22 : Int) : ℚ) / 2) 0 = 0 := max_eq_right (by push_cast; norm_num)
    rw [hm, pyint_of_nonneg le_rfl, Int.floor_zero]
  have hax2 : axis_bounds 0 (((0 : Int) : ℚ) + ((1 : Int) : ℚ) / 2) 100 =
      (0, 0 + 0) := by
    refine axis_bounds_eval ?_ (by norm_num)
    have hq0 : (0 : ℚ) ≤ (((0 : Int) : ℚ) + ((1 : Int) : ℚ) / 2) -
        ((0 : Int) : ℚ) / 2 := by push_cast; norm_num
    rw [max_eq_left hq0]
    refine pyint_eq_of_bounds hq0 ?_ ?_ <;> push_cast <;> norm_num
  refine ⟨hr1, by decide, ?_, by decide, hr2, ?_, by rw [hr2]; decide⟩
  · simp only [crop_region_from_bbox, hcs1, hax1]
    norm_num
  · simp only [crop_region_from_bbox, hcs2, hax2]
    norm_num

/-- C2, amended: with cropSize computed by int() truncation of
max(w, h) * scale (as the code does, not rounding), whenever
1 ≤ cropSize and cropSize fits both source dimensions the computed
region is square with side cropSize, contained in the source bounds,
and on each axis whose unshifted candidate window lies inside the
bounds the region center is within 1 pixel of the box center. -/
theorem crop_region_square_and_centered (W H : Nat) (x y w h : Int)
    (scale : ℚ) (hw : 0 < w) (hh : 0 < h) (hs : 0 < scale)
    (h1 : 1 ≤ crop_size w h scale)
    (hW : crop_size w h scale ≤ (W : Int))
    (hH : crop_size w h scale ≤ (H : Int))
    (l t r b : Int)
    (hreg : crop_region_from_bbox W H (x, y, w, h) scale = (l, t, r, b)) :
    (r - l = crop_size w h scale ∧ b - t = crop_size w h scale) ∧
    (0 ≤ l ∧ l < r ∧ r ≤ (W : Int) ∧ 0 ≤ t ∧ t < b ∧ b ≤ (H : Int)) ∧
    (0 ≤ (x : ℚ) + (w : ℚ) / 2 - (crop_size w h scale : ℚ) / 2 →
      ⌊(x : ℚ) + (w : ℚ) / 2 - (crop_size w h scale : ℚ) / 2⌋ +
        crop_size w h scale ≤ (W : Int) →
      |((l : ℚ) + (r : ℚ)) / 2 - ((x : ℚ) + (w : ℚ) / 2)| ≤ 1) ∧
    (0 ≤ (y : ℚ) + (h : ℚ) / 2 - (crop_size w h scale : ℚ) / 2 →
      ⌊(y : ℚ) + (h : ℚ) / 2 - (crop_size w h scale : ℚ) / 2⌋ +
        crop_size w h scale ≤ (H : Int) →
      |((t : ℚ) + (b : ℚ)) / 2 - ((y : ℚ) + (h : ℚ) / 2)| ≤ 1) := by
  simp only [crop_region_from_bbox, Prod.mk.injEq] at hreg
  obtain ⟨hl, ht, hr, hb⟩ := hreg
  obtain ⟨hd1, hl1, hr1⟩ :=
    axis_bounds_spec (crop_size w h scale) ((x : ℚ) + (w : ℚ) / 2) W h1 hW
  obtain ⟨hd2, hl2, hr2⟩ :=
    axis_bounds_spec (crop_size w h scale) ((y : ℚ) + (h : ℚ) / 2) H h1 hH
  subst hl ht hr hb
  refine ⟨⟨hd1, hd2⟩, ⟨hl1, by omega, hr1, hl2, by omega, hr2⟩, ?_, ?_⟩
  · intro hc0 hc2
    exact axis_bounds_centered _ _ _ hc0 hc2
  · intro hc0 hc2
    exact axis_bounds_centered _ _ _ hc0 hc2

/-- Witness for the amended C2 at a concrete input: box (10, 10, 20, 20)
with scale 2.2 in a 100 by 100 source gives crop size 44 and the square
region (0, 0, 44, 44). -/
theorem crop_region_square_and_centered_witness :
    ((0 : Int) < 20 ∧ (0 : ℚ) < 11 / 5 ∧ 1 ≤ crop_size 20 20 (11 / 5) ∧
      crop_size 20 20 (11 / 5) ≤ (100 : Int)) ∧
    ((44 : Int) - 0 = crop_size 20 20 (11 / 5) ∧
      (44 : Int) - 0 = crop_size 20 20 (11 / 5)) ∧
    ((0 : Int) ≤ 0 ∧ (0 : Int) < 44 ∧ (44 : Int) ≤ (100 : Int) ∧
      (0 : Int) ≤ 0 ∧ (0 : Int) < 44 ∧ (44 : Int) ≤ (100 : Int)) := by
  have hcs : crop_size 20 20 (11 / 5) = 44 := by
    unfold crop_size
    refine pyint_eq_of_bounds ?_ ?_ ?_ <;> push_cast [max_self] <;> norm_num
  have hax : axis_bounds 44 (((10 : Int) : ℚ) + ((20 : Int) : ℚ) / 2) 100 =
      (0, 0 + 44) := by
    refine axis_bounds_eval ?_ (by norm_num)
    have hm : max ((((10 : Int) : ℚ) + ((20 : Int) : ℚ) / 2) -
        ((44 : Int) : ℚ) / 2) 0 = 0 := max_eq_right (by push_cast; norm_num)
    rw [hm, pyint_of_nonneg le_rfl, Int.floor_zero]
  have hreg : crop_region_from_bbox 100 100 (10, 10, 20, 20) (11 / 5) =
      (0, 0, 44, 44) := by
    simp only [crop_region_from_bbox, hcs, hax]
    norm_num
  have h := crop_region_square_and_centered 100 100 10 10 20 20 (11 / 5)
    (by decide) (by decide) (by norm_num) (by rw [hcs]; decide)
    (by rw [hcs]; decide) (by rw [hcs]; decide) 0 0 44 44 hreg
  exact ⟨⟨by decide, by norm_num, by rw [hcs]; decide, by rw [hcs]; decide⟩,
    h.1, h.2.1⟩

/-- C6: whenever the truncated crop size exceeds a source dimension,
the crop region degenerates on that axis to the full source extent
(0 to sourceWidth, or 0 to sourceHeight), silently; if the size exceeds
only the width, the region is strictly wider than tall is false — it is
strictly taller than wide, losing squareness. -/
theorem crop_region_degenerate_full_extent (W H : Nat) (x y w h : Int)
    (scale : ℚ) (hw : 0 < w) (hh : 0 < h) (hs : 0 < scale)
    (l t r b : Int)
    (hreg : crop_region_from_bbox W H (x, y, w, h) scale = (l, t, r, b)) :
    ((W : Int) < crop_size w h scale → l = 0 ∧ r = (W : Int)) ∧
    ((H : Int) < crop_size w h scale → t = 0 ∧ b = (H : Int)) ∧
    ((W : Int) < crop_size w h scale → crop_size w h scale ≤ (H : Int) →
      r - l < b - t) := by
  simp only [crop_region_from_bbox, Prod.mk.injEq] at hreg
  obtain ⟨hl, ht, hr, hb⟩ := hreg
  subst hl ht hr hb
  refine ⟨?_, ?_, ?_⟩
  · intro hW
    rw [axis_bounds_degenerate _ _ _ hW]
    exact ⟨rfl, rfl⟩
  · intro hH
    rw [axis_bounds_degenerate _ _ _ hH]
    exact ⟨rfl, rfl⟩
  · intro hW hcsH
    obtain ⟨hd2, _, _⟩ := axis_bounds_spec (crop_size w h scale)
      ((y : ℚ) + (h : ℚ) / 2) H (by omega) hcsH
    rw [axis_bounds_degenerate _ _ _ hW]
    dsimp only
    omega

/-- Witness for C6: a 50 by 50 box at scale 3 in a 100 by 120 source
has crop size 150, exceeding both dimensions, and the region degenerates
to the full source (0, 0, 100, 120). -/
theorem crop_region_degenerate_full_extent_witness :
    ((100 : Int) < crop_size 50 50 3 ∧ (120 : Int) < crop_size 50 50 3) ∧
    ((0 : Int) = 0 ∧ (100 : Int) = (100 : Int)) ∧
    ((0 : Int) = 0 ∧ (120 : Int) = (120 : Int)) := by
  have hcs : crop_size 50 50 3 = 150 := by
    unfold crop_size
    refine pyint_eq_of_bounds ?_ ?_ ?_ <;> push_cast [max_self] <;> norm_num
  have hreg : crop_region_from_bbox 100 120 (0, 0, 50, 50) 3 =
      (0, 0, 100, 120) := by
    simp only [crop_region_from_bbox, hcs]
    rw [axis_bounds_degenerate 150 _ 100 (by decide),
        axis_bounds_degenerate 150 _ 120 (by decide)]
    norm_num
  have h := crop_region_degenerate_full_extent 100 120 0 0 50 50 3
    (by decide) (by decide) (by norm_num) 0 0 100 120 hreg
  exact ⟨⟨by rw [hcs]; decide, by rw [hcs]; decide⟩,
    h.1 (by rw [hcs]; decide), h.2.1 (by rw [hcs]; decide)⟩

/-- C10: a truthy manual crop request is applied as the literal
rectangle (x, y, x + width, y + height) with defaults x = 0, y = 0,
width = height = min(imageWidth, imageHeight) and rotation = 0, with no
validation or clamping against the image bounds: with no rotation the
crop succeeds with exactly the requested width and height even when the
rectangle extends beyond the image, and with a rotation the same
pre-rotation literal box is applied to the rotated image. -/
theorem manual_crop_applied_literally (env : PILEnv) (img : Img)
    (fs : ℚ) (cd : CropData) :
    (cd.rotation.getD 0 = 0 →
      0 ≤ cd.width.getD ((min img.width img.height : Nat) : Int) →
      0 ≤ cd.height.getD ((min img.width img.height : Nat) : Int) →
      crop_step env img fs (some cd) = .ok (Img.mk
        (cd.width.getD ((min img.width img.height : Nat) : Int)).toNat
        (cd.height.getD ((min img.width img.height : Nat) : Int)).toNat
        img.mode
        (env.cropData img.data img.width img.height (cd.x.getD 0)
          (cd.y.getD 0)
          (cd.x.getD 0 + cd.width.getD ((min img.width img.height : Nat) : Int))
          (cd.y.getD 0 + cd.height.getD ((min img.width img.height : Nat) : Int))))) ∧
    (∀ img2 : Img, cd.rotation.getD 0 ≠ 0 →
      env.rotateImg img (-(cd.rotation.getD 0)) = .ok img2 →
      crop_step env img fs (some cd) =
        pyCrop env img2 (manual_crop_box img.width img.height cd)) ∧
    manual_crop_box img.width img.height cd =
      (cd.x.getD 0, cd.y.getD 0,
       cd.x.getD 0 + cd.width.getD ((min img.width img.height : Nat) : Int),
       cd.y.getD 0 + cd.height.getD ((min img.width img.height : Nat) : Int)) := by
  refine ⟨?_, ?_, rfl⟩
  · intro hrot hw hh
    simp only [crop_step, hrot]
    rw [if_neg (by simp)]
    show pyCrop env img (manual_crop_box img.width img.height cd) = _
    simp only [pyCrop, manual_crop_box]
    rw [if_neg]
    · have hx : cd.x.getD 0 +
          cd.width.getD ((min img.width img.height : Nat) : Int) -
          cd.x.getD 0 =
          cd.width.getD ((min img.width img.height : Nat) : Int) := by omega
      have hy : cd.y.getD 0 +
          cd.height.getD ((min img.width img.height : Nat) : Int) -
          cd.y.getD 0 =
          cd.height.getD ((min img.width img.height : Nat) : Int) := by omega
      rw [hx, hy]
    · rintro (hc | hc) <;> omega
  · intro img2 hrot hrotok
    simp only [crop_step]
    rw [if_pos hrot, hrotok]
    rfl

/-- Witness for C10: on a 60 by 60 image, a manual crop with x = 50 and
width = height = 100 (y missing, defaulting to 0; rotation missing,
defaulting to 0) crops the out-of-bounds rectangle (50, 0, 150, 100)
literally, producing a 100 by 100 result. -/
theorem manual_crop_applied_literally_witness :
    crop_step dummyEnv (Img.mk 60 60 ImgMode.RGBA []) 0
      (some (CropData.mk (some 50) none (some 100) (some 100) none)) =
    .ok (Img.mk 100 100 ImgMode.RGBA []) := by
  have h := (manual_crop_applied_literally dummyEnv
    (Img.mk 60 60 ImgMode.RGBA []) 0
    (CropData.mk (some 50) none (some 100) (some 100) none)).1
    rfl (by decide) (by decide)
  exact h.trans rfl

end Passport
